import Mathlib

/-!
Verification of the payment-locking system (`src/main.py`) against its
natural-language specification.

The program drives a TP70 bill validator over a serial link.  Its core is a
single `while True` loop that reads one byte per iteration (with a bounded
timeout), dispatches on it (power-up handshake, escrow frame, other), and —
on iterations that did not handle a power-up or escrow frame — performs the
periodic tasks (optional keep-alive POLL and the idle-timeout check).

Shallow embedding choices:
* Time is modelled as `Nat` (`time.time()` values); the loop sees a `now`
  timestamp per iteration.
* One loop iteration is one `step`.  Its input is an `Event`: either the
  0.2s-bounded read yielded nothing (`idle`) or it yielded a byte `b`
  (`recv b next`), where `next` records what the second bounded read would
  return; the code performs that second read only when `b = ESCROW`, and
  the embedding consults `next` only there.
* Outputs of an iteration are collected in a list: response bytes written to
  the validator channel, and invocations of the actuator actions
  `unlock_action` / `relock_action` (modelled separately below).
* The Python dataclass `Session` has `last_activity: float = time.time()`;
  that default expression is evaluated once, when the class is defined, so
  every `Session()` (at startup and at the timeout reset) carries the same
  module-load timestamp.  The embedding threads that timestamp as `t0`.
-/

namespace PaymentLock

/-- `TARGET_AMOUNT = 100` — amount that unlocks one session. -/
def TARGET_AMOUNT : Nat := 100

/-- `SESSION_TIMEOUT_S = 120` — cancel session if idle this long. -/
def SESSION_TIMEOUT_S : Nat := 120

/-- `BILL_VALUE` — bill mapping (RS232 104U codes -> pesos); the commented
entries 0x42..0x44 of the source are absent from the table. -/
def BILL_VALUE (code : Nat) : Option Nat :=
  if code = 0x40 then Option.some 100
  else if code = 0x41 then Option.some 200
  else Option.none

/-- 104U protocol byte `ACCEPT`. -/
def ACCEPT : Nat := 0x02
/-- 104U protocol byte `REJECT`. -/
def REJECT : Nat := 0x0F
/-- 104U protocol byte `HOLD` (escrow hold, not used). -/
def HOLD : Nat := 0x18
/-- 104U protocol byte `POWER1` (validator -> host at power up). -/
def POWER1 : Nat := 0x80
/-- 104U protocol byte `POWER2` (validator -> host at power up, alternate). -/
def POWER2 : Nat := 0x8F
/-- 104U protocol byte `ESCROW` (validator -> host, bill present). -/
def ESCROW : Nat := 0x81
/-- 104U protocol byte `POLL` (host -> validator status request). -/
def POLL : Nat := 0x0C

/-- The `Session` dataclass: `amount`, `last_activity`, `active`. -/
structure Session where
  amount : Nat
  last_activity : Nat
  active : Bool
deriving DecidableEq, Repr

/-- `Session()` — the dataclass constructor with all defaults:
`amount = 0`, `active = True`, and `last_activity` equal to the timestamp
`t0` captured once at class-definition time. -/
def Session.mkDefault (t0 : Nat) : Session :=
  { amount := 0, last_activity := t0, active := true }

/-- The mutable state of the main loop: the session and the `powered` flag. -/
structure LoopState where
  sess : Session
  powered : Bool
deriving DecidableEq, Repr

/-- State at entry of the `while True` loop: `sess = Session()`,
`powered = False`. -/
def initState (t0 : Nat) : LoopState :=
  { sess := Session.mkDefault t0, powered := false }

/-- Observable outputs of one loop iteration: a response byte written to the
validator channel, or an invocation of `unlock_action` / `relock_action`. -/
inductive Out where
  | resp (b : Nat)
  | unlock
  | lock
deriving DecidableEq, Repr

/-- Input of one loop iteration: `idle` when `tp.read(1)` returns no byte
within the timeout, `recv b next` when it returns byte `b`; `next` is what
the following `tp.read(1)` would yield, consulted only on `b = ESCROW`. -/
inductive Event where
  | idle
  | recv (b : Nat) (next : Option Nat)
deriving DecidableEq, Repr

/-- The periodic tasks at the bottom of the loop body (reached only when the
iteration did not `continue` out of the byte dispatch): the keep-alive POLL
write when `powered and int(now) % 3 == 0`, then the timeout auto-cancel
`if sess.active and (now - sess.last_activity) > SESSION_TIMEOUT_S and
sess.amount > 0`, which replaces the session by `Session()` and invokes
`relock_action`. -/
def periodic (t0 now : Nat) (st : LoopState) : LoopState × List Out :=
  let pollOut : List Out :=
    if st.powered = true ∧ now % 3 = 0 then [Out.resp POLL] else []
  if st.sess.active = true ∧ SESSION_TIMEOUT_S < now - st.sess.last_activity
      ∧ 0 < st.sess.amount then
    ({ st with sess := Session.mkDefault t0 }, pollOut ++ [Out.lock])
  else
    (st, pollOut)

/-- One iteration of the main loop, translated from `main()`:
* byte in `{POWER1, POWER2}`: write `ACCEPT`, set `powered`, `continue`;
* byte `ESCROW`: read the denomination byte; if absent, drop the frame
  (`continue`, nothing written); otherwise look it up in `BILL_VALUE`:
  unknown codes get `REJECT` and no session mutation, known codes get
  `ACCEPT`, `sess.amount += value`, `sess.last_activity = now`, and
  `unlock_action` when `sess.amount >= TARGET_AMOUNT`; then `continue`;
* any other byte, or no byte: fall through to the periodic tasks. -/
def step (t0 now : Nat) (e : Event) (st : LoopState) : LoopState × List Out :=
  match e with
  | Event.idle => periodic t0 now st
  | Event.recv b next =>
    if b = POWER1 ∨ b = POWER2 then
      ({ st with powered := true }, [Out.resp ACCEPT])
    else if b = ESCROW then
      match next with
      | Option.none => (st, [])
      | Option.some code =>
        match BILL_VALUE code with
        | Option.none => (st, [Out.resp REJECT])
        | Option.some v =>
          let sess' : Session :=
            { st.sess with amount := st.sess.amount + v, last_activity := now }
          ({ st with sess := sess' },
            Out.resp ACCEPT ::
              (if TARGET_AMOUNT ≤ sess'.amount then [Out.unlock] else []))
    else
      periodic t0 now st

/-- Running the loop over a list of `(now, event)` iterations, collecting all
outputs in order. -/
def run (t0 : Nat) (evs : List (Nat × Event)) (st : LoopState) :
    LoopState × List Out :=
  match evs with
  | [] => (st, [])
  | (now, e) :: rest =>
    let p := step t0 now e st
    let q := run t0 rest p.1
    (q.1, p.2 ++ q.2)

/-- States reachable by the main loop from the start state. -/
inductive Reachable (t0 : Nat) : LoopState → Prop where
  | init : Reachable t0 (initState t0)
  | more (now : Nat) (e : Event) (st : LoopState) :
      Reachable t0 st → Reachable t0 (step t0 now e st).1

/-- The optional ESP32 actuator channel; `failure = some msg` models a
channel whose `write` raises an exception with message `msg`. -/
structure EspPort where
  failure : Option String
deriving DecidableEq, Repr

/-- Outcome of `unlock_action` / `relock_action`: the command strings
actually delivered to the channel, and whether a write error was logged. -/
structure ActionResult where
  written : List String
  errorLogged : Bool
deriving DecidableEq, Repr

/-- `esp.write(...)` — succeeds or raises according to the port. -/
def espWrite (p : EspPort) (_cmd : String) : Except String Unit :=
  match p.failure with
  | Option.none => Except.ok ()
  | Option.some msg => Except.error msg

/-- `unlock_action(esp)`: if `esp` is configured, try `esp.write(b"UNLOCK\n")`
inside `try/except`, logging (and swallowing) any write error; if `esp` is
`None`, only the log line is produced.  Total: never propagates an
exception. -/
def unlock_action (esp : Option EspPort) : ActionResult :=
  match esp with
  | Option.none => { written := [], errorLogged := false }
  | Option.some p =>
    match espWrite p "UNLOCK\n" with
    | Except.ok _ => { written := ["UNLOCK\n"], errorLogged := false }
    | Except.error _ => { written := [], errorLogged := true }

/-- `relock_action(esp)`: same shape as `unlock_action`, writing
`b"LOCK\n"`. -/
def relock_action (esp : Option EspPort) : ActionResult :=
  match esp with
  | Option.none => { written := [], errorLogged := false }
  | Option.some p =>
    match espWrite p "LOCK\n" with
    | Except.ok _ => { written := ["LOCK\n"], errorLogged := false }
    | Except.error _ => { written := [], errorLogged := true }

/-- ASCII whitespace, for trimming operator input lines. -/
def isSpaceChar (c : Char) : Bool :=
  c = ' ' || c = '\t' || c = '\n' || c = '\r'

/-- Trimming: drop leading and trailing whitespace characters. -/
def trimChars (cs : List Char) : List Char :=
  ((cs.dropWhile isSpaceChar).reverse.dropWhile isSpaceChar).reverse

/-- Lowercasing, character by character. -/
def lowerChars (cs : List Char) : List Char :=
  cs.map Char.toLower

/-- Modelled from the spec: `src/main.py` contains no operator input path at
all (no reset listener thread, no reading of an operator command source), so
the manual-reset handler is modelled from the spec's words: a line-oriented
command `reset` (case-insensitive, trimmed) zeroes `accumulated_value`,
clears `active`, updates `last_activity` (spec §3: updated on every reset),
and triggers the lock action; any other input is ignored. -/
def handleOperatorLine (line : String) (now : Nat) (sess : Session) :
    Session × List Out :=
  if lowerChars (trimChars line.data) = "reset".data then
    ({ amount := 0, last_activity := now, active := false }, [Out.lock])
  else
    (sess, [])

/-- Helper: `ESCROW` is not one of the power-up bytes, so the escrow branch
of the dispatch is the one taken for `Event.recv ESCROW next`. -/
theorem step_escrow (t0 now : Nat) (next : Option Nat) (st : LoopState) :
    step t0 now (Event.recv ESCROW next) st =
      match next with
      | Option.none => (st, [])
      | Option.some code =>
        match BILL_VALUE code with
        | Option.none => (st, [Out.resp REJECT])
        | Option.some v =>
          ({ st with sess := { st.sess with amount := st.sess.amount + v, last_activity := now } },
            Out.resp ACCEPT ::
              (if TARGET_AMOUNT ≤ st.sess.amount + v then [Out.unlock]
               else [])) := by
  have h : ¬ (ESCROW = POWER1 ∨ ESCROW = POWER2) := by decide
  simp [step, h]

/-- Helper: a power-up byte makes the iteration write `ACCEPT`, set
`powered`, and leave the session untouched. -/
theorem step_power (t0 now b : Nat) (next : Option Nat) (st : LoopState)
    (h : b = POWER1 ∨ b = POWER2) :
    step t0 now (Event.recv b next) st =
      ({ st with powered := true }, [Out.resp ACCEPT]) := by
  simp [step, h]

end PaymentLock

namespace PaymentLock

/-- C8: The protocol and table constants equal the interoperability values
the spec fixes: ACCEPT = 0x02, REJECT = 0x0F, POLL = 0x0C, POWER1 = 0x80,
POWER2 = 0x8F, ESCROW = 0x81, and the denomination table maps 0x40 to 100
and 0x41 to 200. -/
theorem C8_constants :
    ACCEPT = 0x02 ∧ REJECT = 0x0F ∧ POLL = 0x0C ∧ POWER1 = 0x80 ∧
    POWER2 = 0x8F ∧ ESCROW = 0x81 ∧
    BILL_VALUE 0x40 = Option.some 100 ∧ BILL_VALUE 0x41 = Option.some 200 := by
  refine ⟨rfl, rfl, rfl, rfl, rfl, rfl, ?_, ?_⟩ <;> decide

/-- C7: If the escrow byte is received but the bounded-timeout read of the
denomination byte yields no data, the iteration writes no response byte and
leaves the whole loop state unchanged: the incomplete frame is dropped. -/
theorem C7_incomplete_frame_dropped (t0 now : Nat) (st : LoopState) :
    step t0 now (Event.recv ESCROW Option.none) st = (st, []) := by
  have h : ¬ (ESCROW = POWER1 ∨ ESCROW = POWER2) := by decide
  simp [step, h]

/-- C4: For every denomination code present in `BILL_VALUE` with value `v`,
an escrow frame carrying that code increases the accumulated amount by
exactly `v`, sets `last_activity` to the current time, and writes the
`ACCEPT` response byte to the channel. -/
theorem C4_known_bill_accepted (t0 now code v : Nat) (st : LoopState)
    (h : BILL_VALUE code = Option.some v) :
    (step t0 now (Event.recv ESCROW (Option.some code)) st).1.sess.amount
        = st.sess.amount + v ∧
    (step t0 now (Event.recv ESCROW (Option.some code)) st).1.sess.last_activity
        = now ∧
    Out.resp ACCEPT ∈ (step t0 now (Event.recv ESCROW (Option.some code)) st).2 := by
  rw [step_escrow]
  simp [h]

/-- C4 witness: presenting code 0x40 (value 100) at time 7 in the start
state adds 100, stamps `last_activity = 7`, and responds `ACCEPT`. -/
theorem C4_known_bill_accepted_witness :
    (step 0 7 (Event.recv ESCROW (Option.some 0x40)) (initState 0)).1.sess.amount
        = (initState 0).sess.amount + 100 ∧
    (step 0 7 (Event.recv ESCROW (Option.some 0x40)) (initState 0)).1.sess.last_activity
        = 7 ∧
    Out.resp ACCEPT ∈ (step 0 7 (Event.recv ESCROW (Option.some 0x40)) (initState 0)).2 :=
  C4_known_bill_accepted 0 7 0x40 100 (initState 0) (by decide)

/-- C5: For every denomination code absent from `BILL_VALUE`, an escrow
frame carrying that code writes the `REJECT` response byte and leaves the
entire state (session fields included) unchanged. -/
theorem C5_unknown_bill_rejected (t0 now code : Nat) (st : LoopState)
    (h : BILL_VALUE code = Option.none) :
    step t0 now (Event.recv ESCROW (Option.some code)) st
      = (st, [Out.resp REJECT]) := by
  rw [step_escrow]
  simp [h]

/-- C5 witness: presenting code 0x42 (absent from the table) leaves the
start state unchanged and responds `REJECT`. -/
theorem C5_unknown_bill_rejected_witness :
    step 0 7 (Event.recv ESCROW (Option.some 0x42)) (initState 0)
      = (initState 0, [Out.resp REJECT]) :=
  C5_unknown_bill_rejected 0 7 0x42 (initState 0) (by decide)

/-- C6: For every sequence of power-up events (each iteration receiving
`POWER1` or `POWER2`), every event writes exactly the `ACCEPT`
(acknowledge-power) byte and no field of the session changes: power-up
handling is idempotent on session state. -/
theorem C6_powerup_idempotent (t0 : Nat) (evs : List (Nat × Nat × Option Nat))
    (st : LoopState)
    (h : ∀ p ∈ evs, p.2.1 = POWER1 ∨ p.2.1 = POWER2) :
    (run t0 (evs.map fun p => (p.1, Event.recv p.2.1 p.2.2)) st).1.sess
        = st.sess ∧
    (run t0 (evs.map fun p => (p.1, Event.recv p.2.1 p.2.2)) st).2
        = evs.map fun _ => Out.resp ACCEPT := by
  induction evs generalizing st with
  | nil => exact ⟨rfl, rfl⟩
  | cons p rest ih =>
    have hp := h p (List.mem_cons_self p rest)
    have hrest : ∀ q ∈ rest, q.2.1 = POWER1 ∨ q.2.1 = POWER2 :=
      fun q hq => h q (List.mem_cons_of_mem p hq)
    have hstep := step_power t0 p.1 p.2.1 p.2.2 st hp
    have ihr := ih { st with powered := true } hrest
    simp only [List.map_cons, run, hstep]
    exact ⟨ihr.1, by simp [ihr.2]⟩

/-- C6 witness: two consecutive power-up events (`POWER1` then `POWER2`)
leave the session unchanged and acknowledge each with `ACCEPT`. -/
theorem C6_powerup_idempotent_witness :
    (run 0 ([((1 : Nat), (POWER1 : Nat), (Option.none : Option Nat)),
             (2, POWER2, Option.none)].map
        fun p => (p.1, Event.recv p.2.1 p.2.2)) (initState 0)).1.sess
        = (initState 0).sess ∧
    (run 0 ([((1 : Nat), (POWER1 : Nat), (Option.none : Option Nat)),
             (2, POWER2, Option.none)].map
        fun p => (p.1, Event.recv p.2.1 p.2.2)) (initState 0)).2
        = [((1 : Nat), (POWER1 : Nat), (Option.none : Option Nat)),
           (2, POWER2, Option.none)].map fun _ => Out.resp ACCEPT :=
  C6_powerup_idempotent 0
    [(1, POWER1, Option.none), (2, POWER2, Option.none)] (initState 0)
    (by decide)

/-- Helper: the periodic tasks never invoke the unlock action; they emit at
most a `POLL` response and a lock invocation. -/
theorem unlock_not_in_periodic (t0 now : Nat) (st : LoopState) :
    ¬ Out.unlock ∈ (periodic t0 now st).2 := by
  simp only [periodic]
  split <;> split <;> simp

/-- C1 counterexample: with the table value 100 for code 0x40 and
`TARGET_AMOUNT = 100`, presenting 0x40 twice makes unlock fire on both
bills: the second firing happens although the pre-state amount (100) was
already at target — no below-to-at-or-above transition — and no reset
intervened between the two firings of the same crossing. -/
theorem C1_counterexample :
    (run 0 [(5, Event.recv ESCROW (Option.some 0x40)),
            (6, Event.recv ESCROW (Option.some 0x40))] (initState 0)).2
      = [Out.resp ACCEPT, Out.unlock, Out.resp ACCEPT, Out.unlock] ∧
    (step 0 5 (Event.recv ESCROW (Option.some 0x40)) (initState 0)).1.sess.amount
      = 100 ∧
    ¬ (step 0 5 (Event.recv ESCROW (Option.some 0x40)) (initState 0)).1.sess.amount
        < TARGET_AMOUNT := by
  decide

/-- C1 amended: the unlock action is invoked by a loop iteration exactly
when the iteration accepts a bill (escrow frame with a code in
`BILL_VALUE`) and the updated accumulated amount is at or above
`TARGET_AMOUNT`.  The session is not reset on unlock, so unlock fires again
on every accepted bill while the amount stays at or above target. -/
theorem C1_amended_unlock_iff_at_target (t0 now : Nat) (e : Event)
    (st : LoopState) :
    Out.unlock ∈ (step t0 now e st).2 ↔
      ∃ code v, e = Event.recv ESCROW (Option.some code) ∧
        BILL_VALUE code = Option.some v ∧
        TARGET_AMOUNT ≤ st.sess.amount + v := by
  cases e with
  | idle =>
    simp only [step]
    constructor
    · intro h
      exact absurd h (unlock_not_in_periodic t0 now st)
    · rintro ⟨code, v, h, -⟩
      cases h
  | recv b next =>
    by_cases hp : b = POWER1 ∨ b = POWER2
    · rw [step_power t0 now b next st hp]
      constructor
      · intro h
        simp at h
      · rintro ⟨code, v, h, -⟩
        cases h
        rcases hp with hp | hp <;> exact absurd hp (by decide)
    · by_cases he : b = ESCROW
      · subst he
        rw [step_escrow]
        cases next with
        | none =>
          constructor
          · intro h
            simp at h
          · rintro ⟨code, v, h, -⟩
            cases h
        | some code =>
          cases hbv : BILL_VALUE code with
          | none =>
            simp only [hbv]
            constructor
            · intro h
              simp at h
            · rintro ⟨code', v', h, hbv', -⟩
              cases h
              rw [hbv] at hbv'
              cases hbv'
          | some v =>
            simp only [hbv]
            constructor
            · intro h
              refine ⟨code, v, rfl, hbv, ?_⟩
              rcases List.mem_cons.mp h with h | h
              · cases h
              · by_contra hlt
                rw [if_neg hlt] at h
                cases h
            · rintro ⟨code', v', h, hbv', hle⟩
              cases h
              rw [hbv] at hbv'
              cases hbv'
              simp [if_pos hle]
      · simp only [step, if_neg hp, if_neg he]
        constructor
        · intro h
          exact absurd h (unlock_not_in_periodic t0 now st)
        · rintro ⟨code, v, h, -⟩
          cases h
          exact absurd rfl he

/-- C2 counterexample: with `SESSION_TIMEOUT_S = 120`, two concrete
sessions whose last activity lies 121 seconds in the past refute the claim.
With `amount = 0` the timeout check does nothing at all (no reset, no
relock), so the reset is not performed "regardless of the accumulated
amount".  With `amount = 50` the reset does fire, but the fresh `Session()`
it installs has `active = true`, not `false`. -/
theorem C2_counterexample :
    step 0 121 Event.idle
        { sess := { amount := 0, last_activity := 0, active := true },
          powered := false }
      = ({ sess := { amount := 0, last_activity := 0, active := true },
           powered := false }, []) ∧
    (step 0 121 Event.idle
        { sess := { amount := 50, last_activity := 0, active := true },
          powered := false }).1.sess.active = true ∧
    Out.lock ∈ (step 0 121 Event.idle
        { sess := { amount := 50, last_activity := 0, active := true },
          powered := false }).2 := by
  decide

/-- C2 amended: if the session is active, the elapsed time since
`last_activity` strictly exceeds `SESSION_TIMEOUT_S`, and the accumulated
amount is strictly positive, the next timeout check replaces the session by
a fresh `Session()` (amount 0, `active = true`, `last_activity` equal to
the class-definition default timestamp `t0`) and invokes the relock action;
when the accumulated amount is 0, the check changes nothing and does not
relock. -/
theorem C2_amended_timeout_reset (t0 now : Nat) (st : LoopState)
    (h1 : st.sess.active = true)
    (h2 : SESSION_TIMEOUT_S < now - st.sess.last_activity) :
    (0 < st.sess.amount →
      (step t0 now Event.idle st).1.sess = Session.mkDefault t0 ∧
        Out.lock ∈ (step t0 now Event.idle st).2) ∧
    (st.sess.amount = 0 →
      (step t0 now Event.idle st).1 = st ∧
        ¬ Out.lock ∈ (step t0 now Event.idle st).2) := by
  constructor
  · intro h3
    have h4 : st.sess.active = true ∧
        SESSION_TIMEOUT_S < now - st.sess.last_activity ∧
        0 < st.sess.amount := ⟨h1, h2, h3⟩
    simp only [step, periodic, if_pos h4]
    exact ⟨by simp, by simp⟩
  · intro h3
    have h4 : ¬ (st.sess.active = true ∧
        SESSION_TIMEOUT_S < now - st.sess.last_activity ∧
        0 < st.sess.amount) := by
      rintro ⟨-, -, h5⟩
      rw [h3] at h5
      exact Nat.lt_irrefl 0 h5
    simp only [step, periodic, if_neg h4]
    refine ⟨by simp, ?_⟩
    split <;> simp

/-- C2 witness: at time 121 with `amount = 50`, `last_activity = 0`, the
timeout check resets to `Session()` and invokes relock. -/
theorem C2_amended_timeout_reset_witness :
    (step 0 121 Event.idle
        { sess := { amount := 50, last_activity := 0, active := true },
          powered := false }).1.sess = Session.mkDefault 0 ∧
      Out.lock ∈ (step 0 121 Event.idle
        { sess := { amount := 50, last_activity := 0, active := true },
          powered := false }).2 :=
  (C2_amended_timeout_reset 0 121
      { sess := { amount := 50, last_activity := 0, active := true },
        powered := false } (by decide) (by decide)).1 (by decide)

/-- C3 (modelled from the spec, `src/main.py` has no operator input path):
an input line equal to `reset` after trimming and lowercasing zeroes the
accumulated amount, clears `active`, stamps `last_activity`, and invokes
the lock action, regardless of prior session state; any other operator
input leaves the session unchanged and invokes nothing. -/
theorem C3_operator_reset (line : String) (now : Nat) (sess : Session) :
    (lowerChars (trimChars line.data) = "reset".data →
      handleOperatorLine line now sess
        = ({ amount := 0, last_activity := now, active := false },
           [Out.lock])) ∧
    (lowerChars (trimChars line.data) ≠ "reset".data →
      handleOperatorLine line now sess = (sess, [])) := by
  constructor
  · intro h
    simp [handleOperatorLine, h]
  · intro h
    simp [handleOperatorLine, h]

/-- C3 witness: the line `"  ReSeT  "` resets a session holding 77, while
the line `"status"` is ignored. -/
theorem C3_operator_reset_witness :
    handleOperatorLine "  ReSeT  " 9
        { amount := 77, last_activity := 3, active := true }
      = ({ amount := 0, last_activity := 9, active := false }, [Out.lock]) ∧
    handleOperatorLine "status" 9
        { amount := 77, last_activity := 3, active := true }
      = ({ amount := 77, last_activity := 3, active := true }, []) :=
  ⟨(C3_operator_reset "  ReSeT  " 9
      { amount := 77, last_activity := 3, active := true }).1 (by decide),
   (C3_operator_reset "status" 9
      { amount := 77, last_activity := 3, active := true }).2 (by decide)⟩

/-- C9: both actuator actions are no-ops (beyond logging) when no secondary
channel is configured; a raising write is caught, logged, and swallowed, so
the action still returns normally; and a successful write delivers exactly
the literal command text, `"UNLOCK\n"` respectively `"LOCK\n"`. -/
theorem C9_actuator_best_effort (esp : Option EspPort) :
    (esp = Option.none →
      unlock_action esp = { written := [], errorLogged := false } ∧
      relock_action esp = { written := [], errorLogged := false }) ∧
    (∀ p msg, esp = Option.some p → p.failure = Option.some msg →
      unlock_action esp = { written := [], errorLogged := true } ∧
      relock_action esp = { written := [], errorLogged := true }) ∧
    (∀ p, esp = Option.some p → p.failure = Option.none →
      unlock_action esp = { written := ["UNLOCK\n"], errorLogged := false } ∧
      relock_action esp = { written := ["LOCK\n"], errorLogged := false }) := by
  refine ⟨?_, ?_, ?_⟩
  · rintro rfl
    exact ⟨rfl, rfl⟩
  · rintro p msg rfl hf
    simp [unlock_action, relock_action, espWrite, hf]
  · rintro p rfl hf
    simp [unlock_action, relock_action, espWrite, hf]

/-- C9 witness: a port whose write raises yields a logged-and-swallowed
error with nothing written; an absent port yields a silent no-op. -/
theorem C9_actuator_best_effort_witness :
    unlock_action (Option.some { failure := Option.some "boom" })
      = { written := [], errorLogged := true } ∧
    relock_action Option.none = { written := [], errorLogged := false } :=
  ⟨((C9_actuator_best_effort
        (Option.some { failure := Option.some "boom" })).2.1
      { failure := Option.some "boom" } "boom" rfl rfl).1,
   ((C9_actuator_best_effort Option.none).1 rfl).2⟩

/-- Helper: no loop iteration ever turns the `active` flag off — the escrow
update copies it, and the timeout reset installs `Session()`, whose
`active` default is `True`. -/
theorem step_preserves_active (t0 now : Nat) (e : Event) (st : LoopState)
    (h : st.sess.active = true) :
    (step t0 now e st).1.sess.active = true := by
  cases e with
  | idle =>
    simp only [step, periodic]
    split <;> simp [Session.mkDefault, h]
  | recv b next =>
    by_cases hp : b = POWER1 ∨ b = POWER2
    · rw [step_power t0 now b next st hp]
      exact h
    · by_cases he : b = ESCROW
      · subst he
        rw [step_escrow]
        cases next with
        | none => exact h
        | some code => cases hbv : BILL_VALUE code <;> simp [hbv, h]
      · simp only [step, if_neg hp, if_neg he, periodic]
        split <;> simp [Session.mkDefault, h]

/-- C10: in every reachable state of the main loop, `Session.active` is
`true`: the session starts with the dataclass default `active = True`, no
branch of the loop ever writes `active = False`, and the timeout reset
installs a fresh `Session()` whose `active` is again `True`. -/
theorem C10_active_always_true (t0 : Nat) (st : LoopState)
    (h : Reachable t0 st) : st.sess.active = true := by
  induction h with
  | init => rfl
  | more now e st' _ ih => exact step_preserves_active t0 now e st' ih

/-- C10 witness: the start state is reachable and its `active` flag is
`true`. -/
theorem C10_active_always_true_witness : (initState 0).sess.active = true :=
  C10_active_always_true 0 (initState 0) Reachable.init

end PaymentLock
